import Mathlib

/-!
Shallow embedding of the k8s-platform demo stack: a FastAPI Data Service
(`src/app/backend/main.py`) backed by a psycopg2 connection pool, and a Flask
Gateway Service (`src/app/frontend/app.py`) that proxies to it through a
retrying `requests` session.

Handlers are embedded as pure functions from the request data and the
environment outcome (pool acquisition result, query result, downstream call
result) to the HTTP response they produce.
-/

/-- JSON values, the shape of every request/response body in the system. -/
inductive Json where
  | null : Json
  | str : String → Json
  | nat : Nat → Json
  | arr : List Json → Json
  | obj : List (String × Json) → Json
deriving Repr

mutual

/-- Whether the string `s` occurs anywhere in a JSON value (as a string
leaf or as an object key). Used to state that a body carries, or fails to
carry, a correlation identifier. -/
def Json.containsStr (s : String) : Json → Bool
  | .null => false
  | .str t => t == s
  | .nat _ => false
  | .arr l => jsonListContainsStr s l
  | .obj l => jsonFieldsContainStr s l

/-- `Json.containsStr` over a list of values. -/
def jsonListContainsStr (s : String) : List Json → Bool
  | [] => false
  | j :: rest => j.containsStr s || jsonListContainsStr s rest

/-- `Json.containsStr` over object fields. -/
def jsonFieldsContainStr (s : String) : List (String × Json) → Bool
  | [] => false
  | (k, v) :: rest => k == s || v.containsStr s || jsonFieldsContainStr s rest

end

/-- An HTTP response: status code, JSON body, and the application-set
response headers (framework defaults such as Content-Type are not modelled). -/
structure HttpResponse where
  status : Nat
  body : Json
  headers : List (String × String)
deriving Repr

/-- A row of the `items` table (backend `/data`). -/
structure Item where
  id : Nat
  name : String
  description : String
  created_at : String
deriving Repr

/-- A row of the `football_clubs` table (backend `/footballClub`). -/
structure FootballClub where
  id : Nat
  name : String
  country : String
  founded_year : Nat
  created_at : String
deriving Repr

/-- Serialization of an `items` row, as `RealDictCursor` rows serialize. -/
def Item.toJson (i : Item) : Json :=
  .obj [("id", .nat i.id), ("name", .str i.name),
        ("description", .str i.description), ("created_at", .str i.created_at)]

/-- Serialization of a `football_clubs` row. -/
def FootballClub.toJson (c : FootballClub) : Json :=
  .obj [("id", .nat c.id), ("name", .str c.name), ("country", .str c.country),
        ("founded_year", .nat c.founded_year), ("created_at", .str c.created_at)]

/-- The state of the psycopg2 `SimpleConnectionPool`: its `maxconn` bound and
the number of connections currently checked out (`len(_used)`). -/
structure PoolState where
  maxconn : Nat
  used : Nat
deriving Repr, DecidableEq

/-- `connection_pool.getconn()` checks one connection out. -/
def PoolState.getconn (ps : PoolState) : PoolState := { ps with used := ps.used + 1 }

/-- `connection_pool.putconn(conn)` returns one connection. -/
def PoolState.putconn (ps : PoolState) : PoolState := { ps with used := ps.used - 1 }

/-- Exceptions the database layer can raise into a handler.
`poolError` is `psycopg2.pool.PoolError` (a direct subclass of
`psycopg2.Error`, hence neither an `OperationalError` nor a
`DatabaseError`); `operationalError` and `databaseError` are the psycopg2
classes of those names (`OperationalError` is a subclass of
`DatabaseError`); `otherError` is any other exception. -/
inductive DbExc where
  | poolError
  | operationalError (msg : String)
  | databaseError (msg : String)
  | otherError (msg : String)
deriving Repr, DecidableEq

/-- Outcome of `connection_pool.getconn()` inside `get_db_connection`:
it may produce a connection, raise `PoolError` (pool exhausted), raise
`OperationalError` (the pool must open a fresh connection and the database
refuses it), or return a falsy value (the `else` branch of the source). -/
inductive AcquireOutcome where
  | ok
  | exhausted
  | connectFailure (msg : String)
  | nullConn
deriving Repr, DecidableEq

/-- An exception escaping `get_db_connection` into a route handler: either a
FastAPI `HTTPException` carrying a status code and a `detail` string, or a
database-layer exception passed through unchanged. -/
inductive HandlerExc where
  | http (status : Nat) (detail : String)
  | db (e : DbExc)
deriving Repr, DecidableEq

/-- What the `with`-body does once it holds the connection: return a value,
raise a database-layer exception, or raise an `HTTPException` of its own. -/
inductive BodyOutcome (α : Type) where
  | ok (val : α)
  | exc (e : HandlerExc)
deriving Repr

/-- Embedding of the `get_db_connection` context manager together with a
`with get_db_connection() as conn:` body.

Faithful to the source's control flow: `getconn` failures that are
`OperationalError` are converted to `HTTPException(503, "Database connection
error")`; a `PoolError` is not an `OperationalError` and propagates
unconverted; a falsy connection raises `HTTPException(503, "Unable to get
database connection from pool")`. When a connection was produced, the body
runs; an `OperationalError` raised by the body is caught by the same
`except` clause and converted to the same 503; every other body exception
propagates. The `finally` block returns the connection to the pool whenever
one was checked out, on every path. Returns the handler-visible result and
the final pool state. -/
def get_db_connection {α : Type} (ps : PoolState) (acq : AcquireOutcome)
    (body : BodyOutcome α) : Except HandlerExc α × PoolState :=
  match acq with
  | .exhausted => (.error (.db .poolError), ps)
  | .connectFailure _ => (.error (.http 503 "Database connection error"), ps)
  | .nullConn => (.error (.http 503 "Unable to get database connection from pool"), ps)
  | .ok =>
    let held := ps.getconn
    let result : Except HandlerExc α :=
      match body with
      | .ok v => .ok v
      | .exc (.db (.operationalError _)) => .error (.http 503 "Database connection error")
      | .exc e => .error e
    (result, held.putconn)

/-- The `add_request_id` middleware: the correlation identifier is the
inbound `X-Request-ID` header, or `"unknown"` when absent, and is set as the
`X-Request-ID` header of the outgoing response. -/
def add_request_id (xrid : Option String) (resp : HttpResponse) : HttpResponse :=
  { resp with headers := ("X-Request-ID", xrid.getD "unknown") :: resp.headers }

/-- The `/data` query: `SELECT id, name, description, created_at FROM items
ORDER BY id` — the table's rows sorted by ascending id. -/
def itemsQuery (table : List Item) : List Item :=
  table.mergeSort (fun a b => a.id ≤ b.id)

/-- The `/footballClub` query: the `football_clubs` rows sorted by
ascending id. -/
def clubsQuery (table : List FootballClub) : List FootballClub :=
  table.mergeSort (fun a b => a.id ≤ b.id)

/-- The `get_data` handler body and `except` chain. The `with`-body either
returns `{"data": rows}` or raises the query's exception; then
`except HTTPException: raise`, `except DatabaseError` maps to
`HTTPException(500, "Database query error")`, and `except Exception` maps to
`HTTPException(500, "Internal server error")`. The result is the response
the handler's outcome is rendered to (FastAPI renders an `HTTPException` as
a `{"detail": ...}` body with its status). -/
def get_data (ps : PoolState) (acq : AcquireOutcome) (table : List Item)
    (queryExc : Option DbExc) : HttpResponse × PoolState :=
  let body : BodyOutcome Json :=
    match queryExc with
    | some e => .exc (.db e)
    | none => .ok (.obj [("data", .arr ((itemsQuery table).map Item.toJson))])
  let (r, ps') := get_db_connection ps acq body
  let resp :=
    match r with
    | .ok j => HttpResponse.mk 200 j []
    | .error (.http s d) => HttpResponse.mk s (.obj [("detail", .str d)]) []
    | .error (.db (.operationalError _)) =>
        HttpResponse.mk 500 (.obj [("detail", .str "Database query error")]) []
    | .error (.db (.databaseError _)) =>
        HttpResponse.mk 500 (.obj [("detail", .str "Database query error")]) []
    | .error (.db _) =>
        HttpResponse.mk 500 (.obj [("detail", .str "Internal server error")]) []
  (resp, ps')

/-- The `get_football_clubs` handler: same contract as `get_data` over the
`football_clubs` table, returned under a `clubs` key. -/
def get_football_clubs (ps : PoolState) (acq : AcquireOutcome)
    (table : List FootballClub) (queryExc : Option DbExc) : HttpResponse × PoolState :=
  let body : BodyOutcome Json :=
    match queryExc with
    | some e => .exc (.db e)
    | none => .ok (.obj [("clubs", .arr ((clubsQuery table).map FootballClub.toJson))])
  let (r, ps') := get_db_connection ps acq body
  let resp :=
    match r with
    | .ok j => HttpResponse.mk 200 j []
    | .error (.http s d) => HttpResponse.mk s (.obj [("detail", .str d)]) []
    | .error (.db (.operationalError _)) =>
        HttpResponse.mk 500 (.obj [("detail", .str "Database query error")]) []
    | .error (.db (.databaseError _)) =>
        HttpResponse.mk 500 (.obj [("detail", .str "Database query error")]) []
    | .error (.db _) =>
        HttpResponse.mk 500 (.obj [("detail", .str "Internal server error")]) []
  (resp, ps')

/-- Outcome of the readiness probe (`cur.execute("SELECT 1"); cur.fetchone()`)
run while holding the connection: a row came back, no row came back, or the
cursor raised a database-layer exception. -/
inductive ProbeOutcome where
  | row
  | noRow
  | exc (e : DbExc)
deriving Repr, DecidableEq

/-- The `readiness_check` handler. Its `with`-body returns the ready payload
(with `pool_available = maxconn - len(_used)` computed while the probe's
connection is checked out) when the probe returns a row, and raises
`HTTPException(503, "Database not responding")` when it does not; then
`except HTTPException: raise` and `except Exception` maps everything else to
`HTTPException(503, "Service not ready")`. -/
def readiness_check (ps : PoolState) (acq : AcquireOutcome)
    (probe : ProbeOutcome) : HttpResponse :=
  let held := ps.getconn
  let body : BodyOutcome Json :=
    match probe with
    | .row => .ok (.obj [("status", .str "ready"), ("database", .str "connected"),
                         ("pool_available", .nat (held.maxconn - held.used))])
    | .noRow => .exc (.http 503 "Database not responding")
    | .exc e => .exc (.db e)
  match (get_db_connection ps acq body).1 with
  | .ok j => HttpResponse.mk 200 j []
  | .error (.http s d) => HttpResponse.mk s (.obj [("detail", .str d)]) []
  | .error (.db _) => HttpResponse.mk 503 (.obj [("detail", .str "Service not ready")]) []

/-- The backend's `global_exception_handler`: any exception not handled
inside a route is rendered as a 500 whose body carries the generic detail
and the request's correlation identifier. -/
def global_exception_handler (request_id : String) : HttpResponse :=
  HttpResponse.mk 500
    (.obj [("detail", .str "Internal server error"), ("request_id", .str request_id)]) []

/-- Full backend service of `GET /data`: the `add_request_id` middleware
around the `get_data` handler. -/
def serve_data (xrid : Option String) (ps : PoolState) (acq : AcquireOutcome)
    (table : List Item) (queryExc : Option DbExc) : HttpResponse :=
  add_request_id xrid (get_data ps acq table queryExc).1

/-- Full backend service of `GET /footballClub`. -/
def serve_clubs (xrid : Option String) (ps : PoolState) (acq : AcquireOutcome)
    (table : List FootballClub) (queryExc : Option DbExc) : HttpResponse :=
  add_request_id xrid (get_football_clubs ps acq table queryExc).1

/-- Full backend service of `GET /ready`. -/
def serve_ready (xrid : Option String) (ps : PoolState) (acq : AcquireOutcome)
    (probe : ProbeOutcome) : HttpResponse :=
  add_request_id xrid (readiness_check ps acq probe)

/-- The urllib3 `Retry` policy configured in `create_session`. -/
structure Retry where
  total : Nat
  backoff_factor : Nat
  status_forcelist : List Nat
  allowed_methods : List String
deriving Repr, DecidableEq

/-- The `HTTPAdapter` mounted on the shared session. -/
structure HTTPAdapter where
  max_retries : Retry
  pool_connections : Nat
  pool_maxsize : Nat
deriving Repr, DecidableEq

/-- `create_session` from the gateway source: `Retry(total=3, backoff_factor=1,
status_forcelist=[429, 500, 502, 503, 504], allowed_methods=["GET", "POST"])`
on an adapter with `pool_connections=10, pool_maxsize=10`. -/
def create_session : HTTPAdapter :=
  { max_retries :=
      { total := 3
        backoff_factor := 1
        status_forcelist := [429, 500, 502, 503, 504]
        allowed_methods := ["GET", "POST"] }
    pool_connections := 10
    pool_maxsize := 10 }

/-- urllib3 counts `total` as the number of retries — the source's own
comment on this configuration reads "Retry strategy: 3 retries with
exponential backoff" — so the number of HTTP attempts a call can make is
one initial attempt plus the retries. -/
def Retry.maxAttempts (r : Retry) : Nat := r.total + 1

/-- The backoff delay before the n-th retry (n ≥ 1):
`backoff_factor * 2^(n-1)` seconds — the source's comment reads
"1s, 2s, 4s delays". -/
def Retry.backoffDelay (r : Retry) (n : Nat) : Nat := r.backoff_factor * 2 ^ (n - 1)

/-- Whether a response status code is retried (`status_forcelist`). -/
def Retry.retriesStatus (r : Retry) (s : Nat) : Bool := r.status_forcelist.contains s

/-- Whether a request method is retried (`allowed_methods`). -/
def Retry.retriesMethod (r : Retry) (m : String) : Bool := r.allowed_methods.contains m

/-- The outcome of the gateway's `http_session.get(...)` call as the handler
observes it: a `requests.exceptions.Timeout`, a
`requests.exceptions.ConnectionError`, a response with a status code and a
body (`none` when the body is not valid JSON, so that `response.json()`
raises), or any other exception. -/
inductive DownstreamResult where
  | timeout
  | connectionError
  | response (status : Nat) (body : Option Json)
  | otherError
deriving Repr

/-- `response.raise_for_status()` raises `HTTPError` exactly for client and
server error status codes (4xx and 5xx). -/
def raise_for_status (s : Nat) : Bool := 400 ≤ s && s < 600

/-- The gateway `home` handler (`GET /`): reads the inbound `X-Request-ID`
(defaulting to "unknown"), calls the backend `/data` URL with that value as
an outbound `X-Request-ID` header, and maps the call's outcome: success is
wrapped as `{"frontend": "Hello from Flask!", "backend": <payload>}` with
200; `Timeout` maps to 504, `ConnectionError` to 503, `HTTPError` (from
`raise_for_status`) to 502, and any other exception — including a
`response.json()` decode failure — to 500, each with its fixed generic
body. Returns the headers sent downstream and the gateway response. -/
def home (xrid : Option String) (ds : DownstreamResult) :
    List (String × String) × HttpResponse :=
  let request_id := xrid.getD "unknown"
  let outHeaders := [("X-Request-ID", request_id)]
  let resp :=
    match ds with
    | .timeout =>
        HttpResponse.mk 504
          (.obj [("error", .str "Backend service timeout"),
                 ("message", .str "The backend service took too long to respond")]) []
    | .connectionError =>
        HttpResponse.mk 503
          (.obj [("error", .str "Backend service unavailable"),
                 ("message", .str "Could not connect to backend service")]) []
    | .response s b =>
        if raise_for_status s then
          HttpResponse.mk 502
            (.obj [("error", .str "Backend error"),
                   ("message", .str "Backend returned an error")]) []
        else
          match b with
          | some j =>
              HttpResponse.mk 200
                (.obj [("frontend", .str "Hello from Flask!"), ("backend", j)]) []
          | none =>
              HttpResponse.mk 500
                (.obj [("error", .str "Internal server error"),
                       ("message", .str "An unexpected error occurred")]) []
    | .otherError =>
        HttpResponse.mk 500
          (.obj [("error", .str "Internal server error"),
                 ("message", .str "An unexpected error occurred")]) []
  (outHeaders, resp)

/-- The gateway `football_clubs` handler (`GET /clubs`): same structure as
`home` against the backend `/footballClub` URL, except that on success the
downstream JSON body is returned unwrapped. -/
def football_clubs (xrid : Option String) (ds : DownstreamResult) :
    List (String × String) × HttpResponse :=
  let request_id := xrid.getD "unknown"
  let outHeaders := [("X-Request-ID", request_id)]
  let resp :=
    match ds with
    | .timeout =>
        HttpResponse.mk 504
          (.obj [("error", .str "Backend service timeout"),
                 ("message", .str "The backend service took too long to respond")]) []
    | .connectionError =>
        HttpResponse.mk 503
          (.obj [("error", .str "Backend service unavailable"),
                 ("message", .str "Could not connect to backend service")]) []
    | .response s b =>
        if raise_for_status s then
          HttpResponse.mk 502
            (.obj [("error", .str "Backend error"),
                   ("message", .str "Backend returned an error")]) []
        else
          match b with
          | some j => HttpResponse.mk 200 j []
          | none =>
              HttpResponse.mk 500
                (.obj [("error", .str "Internal server error"),
                       ("message", .str "An unexpected error occurred")]) []
    | .otherError =>
        HttpResponse.mk 500
          (.obj [("error", .str "Internal server error"),
                 ("message", .str "An unexpected error occurred")]) []
  (outHeaders, resp)

/-- Claim C8: a connection acquired from the pool is returned to the pool on
every exit path of `get_db_connection` and of the handlers built on it —
success, query failure, or any raised exception — so no request terminates
while still holding a connection: the pool state after the call equals the
pool state before it. -/
theorem C8_connection_released {α : Type} (ps : PoolState) (acq : AcquireOutcome)
    (body : BodyOutcome α) (table : List Item) (ctable : List FootballClub)
    (q : Option DbExc) :
    (get_db_connection ps acq body).2 = ps
    ∧ (get_data ps acq table q).2 = ps
    ∧ (get_football_clubs ps acq ctable q).2 = ps := by
  refine ⟨?_, ?_, ?_⟩ <;>
    cases acq <;>
    cases ps <;>
    simp [get_db_connection, get_data, get_football_clubs,
      PoolState.getconn, PoolState.putconn]

/-- Claim C6: for every state of the `items` table, a successful `GET /data`
(connection produced, query raises nothing) returns HTTP 200 with the rows
as a JSON array under the `"data"` key; the returned row list is sorted by
ascending id and is a permutation of the table; in particular the empty
table yields an empty array, not an error. -/
theorem C6_data_success (xrid : Option String) (ps : PoolState) (table : List Item) :
    serve_data xrid ps .ok table none =
      HttpResponse.mk 200 (.obj [("data", .arr ((itemsQuery table).map Item.toJson))])
        [("X-Request-ID", xrid.getD "unknown")]
    ∧ (itemsQuery table).Pairwise (fun a b => a.id ≤ b.id)
    ∧ (itemsQuery table).Perm table
    ∧ serve_data xrid ps .ok [] none =
      HttpResponse.mk 200 (.obj [("data", .arr [])])
        [("X-Request-ID", xrid.getD "unknown")] := by
  refine ⟨?_, ?_, ?_, ?_⟩
  · simp [serve_data, get_data, get_db_connection, add_request_id]
  · have h := @List.sorted_mergeSort Item (fun a b : Item => a.id ≤ b.id)
      (by intro a b c hab hbc; simp at hab hbc ⊢; omega)
      (by intro a b; simp; omega) table
    exact h.imp (by simp)
  · exact List.mergeSort_perm table _
  · simp [serve_data, get_data, get_db_connection, add_request_id, itemsQuery]

/-- Claim C7: `GET /ready` returns 200 — with status "ready", database
"connected" and a pool-availability figure — exactly when a pooled
connection is produced and the `SELECT 1` probe returns a row; in every
other case (pool exhausted, connection refused, falsy connection, no probe
row, or any exception from the probe) it returns 503, and its status is
always one of 200 and 503 (no exception escapes the handler's boundary). -/
theorem C7_ready (xrid : Option String) (ps : PoolState) (acq : AcquireOutcome)
    (probe : ProbeOutcome) :
    ((serve_ready xrid ps acq probe).status = 200 ↔ acq = .ok ∧ probe = .row)
    ∧ ((serve_ready xrid ps acq probe).status = 200
        ∨ (serve_ready xrid ps acq probe).status = 503)
    ∧ serve_ready xrid ps .ok .row =
        HttpResponse.mk 200
          (.obj [("status", .str "ready"), ("database", .str "connected"),
                 ("pool_available", .nat (ps.maxconn - (ps.used + 1)))])
          [("X-Request-ID", xrid.getD "unknown")] := by
  refine ⟨?_, ?_, ?_⟩ <;>
    cases acq <;> cases probe <;>
      first
      | (simp [serve_ready, readiness_check, get_db_connection, add_request_id,
          PoolState.getconn]; done)
      | (rename_i e; cases e <;>
          simp [serve_ready, readiness_check, get_db_connection, add_request_id,
            PoolState.getconn])

/-- Claim C1 counterexample: with the pool exhausted (the `getconn` call
raises `PoolError`, which is neither an `OperationalError` nor a
`DatabaseError`), `GET /data` answers 500, not 503 — the failure falls
through to the handler's catch-all branch instead of the
service-unavailable class. -/
theorem C1_counterexample :
    (serve_data (some "r1") (PoolState.mk 10 10) .exhausted [] none).status = 500
    ∧ ¬ (serve_data (some "r1") (PoolState.mk 10 10) .exhausted [] none).status = 503 := by
  constructor <;> decide

/-- Claim C1 amended: on `GET /data` and `GET /footballClub`, pool
exhaustion (`PoolError`) yields 500 with the generic detail "Internal server
error" (it is not an `OperationalError`, so it bypasses the connection
wrapper's 503 conversion and lands in the catch-all branch), while a
connection-refused failure (`OperationalError` while producing a
connection) yields 503 with "Database connection error". -/
theorem C1_amended (xrid : Option String) (ps : PoolState) (table : List Item)
    (ctable : List FootballClub) (q : Option DbExc) (m : String) :
    serve_data xrid ps .exhausted table q =
      HttpResponse.mk 500 (.obj [("detail", .str "Internal server error")])
        [("X-Request-ID", xrid.getD "unknown")]
    ∧ serve_data xrid ps (.connectFailure m) table q =
      HttpResponse.mk 503 (.obj [("detail", .str "Database connection error")])
        [("X-Request-ID", xrid.getD "unknown")]
    ∧ serve_clubs xrid ps .exhausted ctable q =
      HttpResponse.mk 500 (.obj [("detail", .str "Internal server error")])
        [("X-Request-ID", xrid.getD "unknown")]
    ∧ serve_clubs xrid ps (.connectFailure m) ctable q =
      HttpResponse.mk 503 (.obj [("detail", .str "Database connection error")])
        [("X-Request-ID", xrid.getD "unknown")] := by
  refine ⟨?_, ?_, ?_, ?_⟩ <;>
    simp [serve_data, serve_clubs, get_data, get_football_clubs,
      get_db_connection, add_request_id]

/-- Claim C4 counterexample: the 503 produced by the connection wrapper on
`GET /data` has the body `{"detail": "Database connection error"}` — the
request's correlation identifier appears in the `X-Request-ID` response
header but not in the error body. -/
theorem C4_counterexample :
    (serve_data (some "r7") (PoolState.mk 10 0) (.connectFailure "refused") [] none).body
      = Json.obj [("detail", Json.str "Database connection error")]
    ∧ (serve_data (some "r7") (PoolState.mk 10 0)
        (.connectFailure "refused") [] none).body.containsStr "r7" = false
    ∧ (serve_data (some "r7") (PoolState.mk 10 0) (.connectFailure "refused") [] none).headers
      = [("X-Request-ID", "r7")] := by
  refine ⟨rfl, ?_, rfl⟩
  decide

/-- Claim C4 amended: every non-200 response of the `/data`, `/footballClub`
and `/ready` route handlers — the connection wrapper's and readiness check's
503s and the data handlers' 500s — carries only a generic `{"detail": d}`
body: the correlation identifier is echoed in the `X-Request-ID` response
header of every such response but appears in no route-handler error body;
only the top-level `global_exception_handler`'s 500 body carries
`request_id`. -/
theorem C4_amended (xrid : Option String) (ps : PoolState) (acq : AcquireOutcome)
    (table : List Item) (ctable : List FootballClub) (q : Option DbExc)
    (probe : ProbeOutcome) :
    ((serve_data xrid ps acq table q).status ≠ 200 →
      ∃ d, (serve_data xrid ps acq table q).body = Json.obj [("detail", Json.str d)])
    ∧ (serve_data xrid ps acq table q).headers = [("X-Request-ID", xrid.getD "unknown")]
    ∧ global_exception_handler (xrid.getD "unknown") =
        HttpResponse.mk 500
          (.obj [("detail", .str "Internal server error"),
                 ("request_id", .str (xrid.getD "unknown"))]) []
    ∧ ((serve_clubs xrid ps acq ctable q).status ≠ 200 →
      ∃ d, (serve_clubs xrid ps acq ctable q).body = Json.obj [("detail", Json.str d)])
    ∧ (serve_clubs xrid ps acq ctable q).headers = [("X-Request-ID", xrid.getD "unknown")]
    ∧ ((serve_ready xrid ps acq probe).status ≠ 200 →
      ∃ d, (serve_ready xrid ps acq probe).body = Json.obj [("detail", Json.str d)])
    ∧ (serve_ready xrid ps acq probe).headers = [("X-Request-ID", xrid.getD "unknown")] := by
  refine ⟨?_, ?_, rfl, ?_, ?_, ?_, ?_⟩
  · rcases q with _ | e <;>
      cases acq <;>
        first
        | (simp [serve_data, get_data, get_db_connection, add_request_id]; done)
        | (cases e <;>
            simp [serve_data, get_data, get_db_connection, add_request_id])
  · rcases q with _ | e <;>
      cases acq <;>
        first
        | (simp [serve_data, get_data, get_db_connection, add_request_id]; done)
        | (cases e <;>
            simp [serve_data, get_data, get_db_connection, add_request_id])
  · rcases q with _ | e <;>
      cases acq <;>
        first
        | (simp [serve_clubs, get_football_clubs, get_db_connection, add_request_id]; done)
        | (cases e <;>
            simp [serve_clubs, get_football_clubs, get_db_connection, add_request_id])
  · rcases q with _ | e <;>
      cases acq <;>
        first
        | (simp [serve_clubs, get_football_clubs, get_db_connection, add_request_id]; done)
        | (cases e <;>
            simp [serve_clubs, get_football_clubs, get_db_connection, add_request_id])
  · cases acq <;> cases probe <;>
      first
      | (simp [serve_ready, readiness_check, get_db_connection, add_request_id]; done)
      | (rename_i e; cases e <;>
          simp [serve_ready, readiness_check, get_db_connection, add_request_id])
  · cases acq <;> cases probe <;>
      first
      | (simp [serve_ready, readiness_check, get_db_connection, add_request_id]; done)
      | (rename_i e; cases e <;>
          simp [serve_ready, readiness_check, get_db_connection, add_request_id])

/-- Claim C4 amended, witness: at concrete failing inputs the `/data`,
`/footballClub` and `/ready` responses are not 200s and their bodies are
bare generic detail objects. -/
theorem C4_amended_witness :
    ((serve_data (some "w4") (PoolState.mk 10 0) .nullConn [] none).status ≠ 200
      ∧ ∃ d, (serve_data (some "w4") (PoolState.mk 10 0) .nullConn [] none).body
          = Json.obj [("detail", Json.str d)])
    ∧ ((serve_clubs (some "w4") (PoolState.mk 10 0) .nullConn [] none).status ≠ 200
      ∧ ∃ d, (serve_clubs (some "w4") (PoolState.mk 10 0) .nullConn [] none).body
          = Json.obj [("detail", Json.str d)])
    ∧ ((serve_ready (some "w4") (PoolState.mk 10 0) .nullConn .row).status ≠ 200
      ∧ ∃ d, (serve_ready (some "w4") (PoolState.mk 10 0) .nullConn .row).body
          = Json.obj [("detail", Json.str d)]) :=
  ⟨⟨by decide,
    (C4_amended (some "w4") (PoolState.mk 10 0) .nullConn [] [] none .row).1 (by decide)⟩,
   ⟨by decide,
    (C4_amended (some "w4") (PoolState.mk 10 0) .nullConn [] [] none .row).2.2.2.1
      (by decide)⟩,
   ⟨by decide,
    (C4_amended (some "w4") (PoolState.mk 10 0) .nullConn [] [] none .row).2.2.2.2.2.1
      (by decide)⟩⟩

/-- Claim C2 counterexample: `create_session` configures `total := 3`
retries, so a downstream call can make 4 HTTP attempts (one initial attempt
plus three retries — the source's own comment reads "3 retries"), not "at
most 3 attempts total". -/
theorem C2_counterexample :
    create_session.max_retries.maxAttempts = 4
    ∧ ¬ create_session.max_retries.maxAttempts = 3 := by
  constructor <;> decide

/-- Claim C2 amended: the shared client makes at most 4 attempts total per
downstream call (one initial attempt plus up to 3 retries), with exponential
backoff delays of 1, 2 and 4 seconds, and retries only the methods GET and
POST and only the response status codes 429, 500, 502, 503 and 504. -/
theorem C2_amended :
    create_session.max_retries.total = 3
    ∧ create_session.max_retries.maxAttempts = 4
    ∧ create_session.max_retries.backoffDelay 1 = 1
    ∧ create_session.max_retries.backoffDelay 2 = 2
    ∧ create_session.max_retries.backoffDelay 3 = 4
    ∧ (∀ s : Nat, create_session.max_retries.retriesStatus s = true ↔
        s = 429 ∨ s = 500 ∨ s = 502 ∨ s = 503 ∨ s = 504)
    ∧ (∀ m : String, create_session.max_retries.retriesMethod m = true ↔
        m = "GET" ∨ m = "POST") := by
  refine ⟨rfl, rfl, rfl, rfl, rfl, ?_, ?_⟩
  · intro s
    simp [Retry.retriesStatus, create_session]
  · intro m
    simp [Retry.retriesMethod, create_session]

/-- Claim C10: when the downstream call returns HTTP 200 but a body that is
not valid JSON, `response.json()` raises an exception that is neither a
`Timeout`, a `ConnectionError` nor an `HTTPError`, so both gateway routes
fall into the catch-all branch and answer 500 with the generic
internal-error body — not 502. -/
theorem C10_invalid_json (xrid : Option String) :
    (home xrid (.response 200 none)).2 =
      HttpResponse.mk 500
        (.obj [("error", .str "Internal server error"),
               ("message", .str "An unexpected error occurred")]) []
    ∧ (football_clubs xrid (.response 200 none)).2 =
      HttpResponse.mk 500
        (.obj [("error", .str "Internal server error"),
               ("message", .str "An unexpected error occurred")]) []
    ∧ ¬ (home xrid (.response 200 none)).2.status = 502 := by
  refine ⟨?_, ?_, ?_⟩ <;> simp [home, football_clubs, raise_for_status]

/-- Claim C9: on a successful downstream call (200 with a JSON body),
gateway `GET /` answers 200 with the downstream payload wrapped under
`"backend"` next to the static `"frontend": "Hello from Flask!"` field,
while `GET /clubs` returns the downstream body unwrapped with 200; and on
every call both routes send the inbound correlation identifier (or
"unknown") as the `X-Request-ID` header of the downstream request. -/
theorem C9_success_shapes (xrid : Option String) (j : Json) (ds : DownstreamResult) :
    (home xrid (.response 200 (some j))).2 =
      HttpResponse.mk 200
        (.obj [("frontend", .str "Hello from Flask!"), ("backend", j)]) []
    ∧ (football_clubs xrid (.response 200 (some j))).2 = HttpResponse.mk 200 j []
    ∧ (home xrid ds).1 = [("X-Request-ID", xrid.getD "unknown")]
    ∧ (football_clubs xrid ds).1 = [("X-Request-ID", xrid.getD "unknown")] := by
  refine ⟨?_, ?_, ?_, ?_⟩ <;> simp [home, football_clubs, raise_for_status]

/-- Claim C5: the gateway maps downstream-call failures on `GET /` and
`GET /clubs` as: a timeout to 504, a connection error to 503, a 4xx/5xx
downstream status (which makes `raise_for_status` raise `HTTPError`) to
502, and any other failure to 500 — each with its fixed generic body, so no
downstream error detail can appear in these bodies. -/
theorem C5_error_mapping (xrid : Option String) (s : Nat) (b : Option Json) :
    (400 ≤ s → s < 600 → (home xrid (.response s b)).2 =
      HttpResponse.mk 502
        (.obj [("error", .str "Backend error"),
               ("message", .str "Backend returned an error")]) [])
    ∧ (400 ≤ s → s < 600 → (football_clubs xrid (.response s b)).2 =
      HttpResponse.mk 502
        (.obj [("error", .str "Backend error"),
               ("message", .str "Backend returned an error")]) [])
    ∧ (home xrid .timeout).2 =
      HttpResponse.mk 504
        (.obj [("error", .str "Backend service timeout"),
               ("message", .str "The backend service took too long to respond")]) []
    ∧ (football_clubs xrid .timeout).2 =
      HttpResponse.mk 504
        (.obj [("error", .str "Backend service timeout"),
               ("message", .str "The backend service took too long to respond")]) []
    ∧ (home xrid .connectionError).2 =
      HttpResponse.mk 503
        (.obj [("error", .str "Backend service unavailable"),
               ("message", .str "Could not connect to backend service")]) []
    ∧ (football_clubs xrid .connectionError).2 =
      HttpResponse.mk 503
        (.obj [("error", .str "Backend service unavailable"),
               ("message", .str "Could not connect to backend service")]) []
    ∧ (home xrid .otherError).2 =
      HttpResponse.mk 500
        (.obj [("error", .str "Internal server error"),
               ("message", .str "An unexpected error occurred")]) []
    ∧ (football_clubs xrid .otherError).2 =
      HttpResponse.mk 500
        (.obj [("error", .str "Internal server error"),
               ("message", .str "An unexpected error occurred")]) [] := by
  refine ⟨?_, ?_, rfl, rfl, rfl, rfl, rfl, rfl⟩ <;>
    · intro h1 h2
      simp only [home, football_clubs, raise_for_status]
      rw [if_pos (by simp; omega)]

/-- Claim C5 witness: a concrete downstream 500 response is mapped to a 502
bad-gateway answer by `GET /`. -/
theorem C5_witness :
    (400 ≤ 500 ∧ 500 < 600)
    ∧ (home (some "w5") (.response 500 none)).2 =
      HttpResponse.mk 502
        (.obj [("error", .str "Backend error"),
               ("message", .str "Backend returned an error")]) [] :=
  ⟨by decide,
   (C5_error_mapping (some "w5") 500 none).1 (by decide) (by decide)⟩

/-- Claim C3 counterexample: a gateway `GET /` request carrying
`X-Request-ID: abc` gets a response that sets no response headers at all
and whose body does not contain "abc" anywhere — the gateway does not echo
the correlation identifier in its own response. -/
theorem C3_counterexample :
    (home (some "abc") (.response 200 (some (.obj [("data", .arr [])])))).2.headers = []
    ∧ (home (some "abc")
        (.response 200 (some (.obj [("data", .arr [])])))).2.body.containsStr "abc"
      = false := by
  constructor
  · rfl
  · simp [home, raise_for_status, Json.containsStr, jsonFieldsContainStr,
      jsonListContainsStr]

/-- Claim C3 amended: the Data Service echoes the inbound `X-Request-ID`
value (or the synthesized "unknown") unchanged as the `X-Request-ID` header
of every `/data`, `/footballClub` and `/ready` response; the Gateway
forwards it unchanged as the `X-Request-ID` header of the downstream
request on `/` and `/clubs`, but sets no header and writes no identifier
into its own response. -/
theorem C3_amended (xrid : Option String) (ps : PoolState) (acq : AcquireOutcome)
    (table : List Item) (ctable : List FootballClub) (q : Option DbExc)
    (probe : ProbeOutcome) (ds : DownstreamResult) :
    (serve_data xrid ps acq table q).headers = [("X-Request-ID", xrid.getD "unknown")]
    ∧ (serve_clubs xrid ps acq ctable q).headers = [("X-Request-ID", xrid.getD "unknown")]
    ∧ (serve_ready xrid ps acq probe).headers = [("X-Request-ID", xrid.getD "unknown")]
    ∧ (home xrid ds).1 = [("X-Request-ID", xrid.getD "unknown")]
    ∧ (football_clubs xrid ds).1 = [("X-Request-ID", xrid.getD "unknown")]
    ∧ (home xrid ds).2.headers = []
    ∧ (football_clubs xrid ds).2.headers = [] := by
  refine ⟨?_, ?_, ?_, rfl, rfl, ?_, ?_⟩
  · rcases q with _ | e <;> cases acq <;>
      first
      | (simp [serve_data, get_data, get_db_connection, add_request_id]; done)
      | (cases e <;> simp [serve_data, get_data, get_db_connection, add_request_id])
  · rcases q with _ | e <;> cases acq <;>
      first
      | (simp [serve_clubs, get_football_clubs, get_db_connection, add_request_id]; done)
      | (cases e <;>
          simp [serve_clubs, get_football_clubs, get_db_connection, add_request_id])
  · cases acq <;> cases probe <;>
      first
      | (simp [serve_ready, readiness_check, get_db_connection, add_request_id]; done)
      | (rename_i e; cases e <;>
          simp [serve_ready, readiness_check, get_db_connection, add_request_id])
  · cases ds with
    | timeout => rfl
    | connectionError => rfl
    | otherError => rfl
    | response s b =>
        simp only [home]
        split
        · rfl
        · cases b <;> rfl
  · cases ds with
    | timeout => rfl
    | connectionError => rfl
    | otherError => rfl
    | response s b =>
        simp only [football_clubs]
        split
        · rfl
        · cases b <;> rfl
